import Mathlib

/-!
Verification of the startup sequence of the cspc-operator
(`cmd/cspc-operator/app/start.go`).

The Go code is embedded shallowly:

* `getSyncInterval` (and Go's `strconv.Atoi` and `time.Duration`
  arithmetic, which it uses) become pure executable functions; durations
  are `Int` nanosecond counts with 64-bit wrap-around made explicit.
* `Start` becomes a pure function from a `World` — the outcomes of every
  external call `Start` makes (signal handler, kubeconfig loading,
  client constructors, the controller builder's `Build`, `Run`) — to the
  list of externally visible events it performs, in order, together with
  its Go-style `error` return value (`Option Err`, `none` = nil).
-/

/-- Go `error` values: we only track the message text, since the code under
study builds messages with `errors.Wrap(err, msg)` ("msg: err"). -/
structure Err where
  msg : String
deriving DecidableEq

/-- `errors.Wrap(err, description)` / `errors.Wrapf` with a constant format:
the resulting error's text is "description: original". -/
def wrapErr (description : String) (e : Err) : Err :=
  ⟨description ++ ": " ++ e.msg⟩

/-- `*rest.Config` is opaque to `start.go`; an id suffices. -/
abbrev Config := Nat

/-- The typed clientsets are opaque to `start.go`; an id suffices. -/
abbrev Client := Nat

/-- An assembled controller is opaque to `start.go`; an id suffices. -/
abbrev Controller := Nat

/-- 64-bit two's-complement wrap-around, as performed by Go's `int64`
(and hence `time.Duration`) arithmetic. -/
def wrap64 (x : Int) : Int :=
  (x + 9223372036854775808) % 18446744073709551616 - 9223372036854775808

/-- `time.Second` in nanoseconds (`time.Duration` is an `int64` count of
nanoseconds). -/
def goSecond : Int := 1000000000

/-- `ResyncInterval = 30 * time.Second` from `start.go`. -/
def ResyncInterval : Int := 30 * goSecond

/-- One decimal digit, as Go's `strconv` accepts in base 10. -/
def isDigit (c : Char) : Bool := 48 ≤ c.toNat && c.toNat ≤ 57

/-- Accumulate decimal digits, most significant first. -/
def digitsToNat (l : List Char) : Nat :=
  l.foldl (fun a c => a * 10 + (c.toNat - 48)) 0

/-- Go `strconv.Atoi` (= `ParseInt(s, 10, 64)` on a 64-bit platform):
an optional single `+`/`-` sign followed by one or more decimal digits,
value within `int64` range; anything else is an error (the caller in
`start.go` only inspects whether an error occurred, so the error is
`Unit`). -/
def atoi (s : String) : Except Unit Int :=
  let p : Bool × List Char :=
    match s.toList with
    | '-' :: r => (true, r)
    | '+' :: r => (false, r)
    | r => (false, r)
  if p.2.isEmpty then Except.error ()
  else if p.2.all isDigit then
    let v : Int := if p.1 then -(digitsToNat p.2 : Int) else (digitsToNat p.2 : Int)
    if v < -9223372036854775808 ∨ 9223372036854775807 < v then Except.error ()
    else Except.ok v
  else Except.error ()

instance {ε α : Type} [DecidableEq ε] [DecidableEq α] : DecidableEq (Except ε α)
  | Except.error e, Except.error f =>
    if h : e = f then .isTrue (h ▸ rfl) else .isFalse (fun hh => h (by cases hh; rfl))
  | Except.error _, Except.ok _ => .isFalse (fun hh => Except.noConfusion hh)
  | Except.ok _, Except.error _ => .isFalse (fun hh => Except.noConfusion hh)
  | Except.ok x, Except.ok y =>
    if h : x = y then .isTrue (h ▸ rfl) else .isFalse (fun hh => h (by cases hh; rfl))

/-- `os.Getenv` returns the empty string when the variable is absent. -/
def getenv (env : Option String) : String :=
  match env with
  | none => ""
  | some s => s

/-- `getSyncInterval` from `start.go`: `strconv.Atoi(os.Getenv("RESYNC_INTERVAL"))`;
on error or zero, warn (second component `true`) and return the 30 s default;
otherwise return `time.Duration(resyncInterval) * time.Second`, whose `int64`
multiplication wraps. The argument is the value of the `RESYNC_INTERVAL`
environment variable (`none` = absent). -/
def getSyncInterval (env : Option String) : Int × Bool :=
  match atoi (getenv env) with
  | Except.error _ => (ResyncInterval, true)
  | Except.ok resyncInterval =>
    if resyncInterval = 0 then (ResyncInterval, true)
    else (wrap64 (resyncInterval * goSecond), false)

/-- A shared informer factory as `start.go` sees it: the client it was built
from and the resync period it was keyed with. -/
structure InformerFactory where
  client : Client
  resyncPeriod : Int
deriving DecidableEq

/-- `NewSharedInformerFactory(client, resync)` (both the kubernetes and the
openebs flavour construct a factory from a client and a resync period). -/
def NewSharedInformerFactory (client : Client) (resyncPeriod : Int) : InformerFactory :=
  ⟨client, resyncPeriod⟩

/-- Modelled from the spec: the `ControllerBuilder` type (defined elsewhere in
the repository) is a fluent accumulation of the dependencies supplied by the
`with*` steps of `start.go`; each step records the supplied dependency. -/
structure ControllerBuilderState where
  kubeClient : Option Client
  openebsClient : Option Client
  ndmClient : Option Client
  cspcSynced : Option InformerFactory
  cspcLister : Option InformerFactory
  recorder : Option Client
  eventHandler : Option InformerFactory
  rateLimiting : Bool
deriving DecidableEq

/-- Modelled from the spec: `NewControllerBuilder()` starts with no
dependency supplied. -/
def NewControllerBuilder : ControllerBuilderState :=
  ⟨none, none, none, none, none, none, none, false⟩

/-- Modelled from the spec: builder step supplying the core kubernetes client. -/
def ControllerBuilderState.withKubeClient (b : ControllerBuilderState) (c : Client) : ControllerBuilderState :=
  { b with kubeClient := some c }

/-- Modelled from the spec: builder step supplying the openebs client. -/
def ControllerBuilderState.withOpenEBSClient (b : ControllerBuilderState) (c : Client) : ControllerBuilderState :=
  { b with openebsClient := some c }

/-- Modelled from the spec: builder step supplying the ndm client. -/
def ControllerBuilderState.withNDMClient (b : ControllerBuilderState) (c : Client) : ControllerBuilderState :=
  { b with ndmClient := some c }

/-- Modelled from the spec: builder step supplying the cache-synced predicate
derived from the spc informer factory. -/
def ControllerBuilderState.withCSPCSynced (b : ControllerBuilderState) (f : InformerFactory) : ControllerBuilderState :=
  { b with cspcSynced := some f }

/-- Modelled from the spec: builder step supplying the CSPC lister derived
from the spc informer factory. -/
def ControllerBuilderState.withCSPCLister (b : ControllerBuilderState) (f : InformerFactory) : ControllerBuilderState :=
  { b with cspcLister := some f }

/-- Modelled from the spec: builder step supplying the event recorder bound
to the kubernetes client. -/
def ControllerBuilderState.withRecorder (b : ControllerBuilderState) (c : Client) : ControllerBuilderState :=
  { b with recorder := some c }

/-- Modelled from the spec: builder step registering the controller's event
handlers with the spc informer factory (the one builder step with a side
effect: it registers interest with the informer before the factory is
started; `Start` records it as an `Ev.withEventHandler` trace event). -/
def ControllerBuilderState.withEventHandler (b : ControllerBuilderState) (f : InformerFactory) : ControllerBuilderState :=
  { b with eventHandler := some f }

/-- Modelled from the spec: builder step configuring the rate-limited work
queue. -/
def ControllerBuilderState.withWorkqueueRateLimiting (b : ControllerBuilderState) : ControllerBuilderState :=
  { b with rateLimiting := true }

/-- The builder chain exactly as `start.go` writes it, lines 90–98. -/
def buildChain (kubeClient openebsClient ndmClient : Client)
    (spcInformerFactory : InformerFactory) : ControllerBuilderState :=
  ((((((((NewControllerBuilder).withKubeClient kubeClient).withOpenEBSClient
      openebsClient).withNDMClient ndmClient).withCSPCSynced
      spcInformerFactory).withCSPCLister spcInformerFactory).withRecorder
      kubeClient).withEventHandler spcInformerFactory).withWorkqueueRateLimiting

/-- Externally visible events performed by `Start`, in program order. -/
inductive Ev where
  | setupSignalHandler (stopCh : Nat)
  | flagSet
  | flagParse
  | getConfigFromFlags (path : String)
  | getConfigInCluster
  | newKubeClient
  | newOpenebsClient
  | newNdmClient
  | newKubeInformerFactory (resyncPeriod : Int)
  | newSpcInformerFactory (resyncPeriod : Int)
  | withEventHandler
  | buildOk
  | buildErr
  | startKubeFactory (stopCh : Nat)
  | startSpcFactory (stopCh : Nat)
  | run (workers : Nat) (stopCh : Nat)
deriving DecidableEq

/-- The outcomes of every external call `Start` makes: the stop channel the
signal handler produces, the parsed `-kubeconfig` flag, the environment as
observed by each of the two `getSyncInterval()` calls, and the results of
each fallible external constructor. `Start` itself decides which of these
are consulted and in which order. -/
structure World where
  stopCh : Nat
  kubeconfigFlag : String
  resyncEnvFirst : Option String
  resyncEnvSecond : Option String
  flagSetErr : Option Err
  buildConfigFromFlags : String → Except Err Config
  inClusterConfig : Except Err Config
  newKubernetesClient : Config → Except Err Client
  newOpenebsClient : Config → Except Err Client
  newNdmClient : Config → Except Err Client
  buildController : ControllerBuilderState → Except Err Controller
  runController : Controller → Nat → Nat → Option Err

/-- `getClusterConfig` from `start.go`: non-empty kubeconfig path →
`clientcmd.BuildConfigFromFlags("", kubeconfig)`; empty path →
`rest.InClusterConfig()`. Returns the trace of which loader ran together
with its result. -/
def getClusterConfig (w : World) (kubeconfig : String) : List Ev × Except Err Config :=
  if kubeconfig ≠ "" then
    ([Ev.getConfigFromFlags kubeconfig], w.buildConfigFromFlags kubeconfig)
  else
    ([Ev.getConfigInCluster], w.inClusterConfig)

/-- `Start` from `start.go`, as a function of the outcomes of its external
calls: returns the trace of events it performs, in order, and its `error`
return value (`none` = nil). -/
def Start (w : World) : List Ev × Option Err :=
  let stopCh := w.stopCh
  match w.flagSetErr with
  | some e =>
    ([Ev.setupSignalHandler stopCh, Ev.flagSet],
     some (wrapErr "failed to set logtostderr flag" e))
  | none =>
    let pre := [Ev.setupSignalHandler stopCh, Ev.flagSet, Ev.flagParse]
    match getClusterConfig w w.kubeconfigFlag with
    | (cfgTr, Except.error e) =>
      (pre ++ cfgTr, some (wrapErr "error building kubeconfig" e))
    | (cfgTr, Except.ok cfg) =>
      match w.newKubernetesClient cfg with
      | Except.error e =>
        (pre ++ cfgTr ++ [Ev.newKubeClient],
         some (wrapErr "error building kubernetes clientset" e))
      | Except.ok kubeClient =>
        match w.newOpenebsClient cfg with
        | Except.error e =>
          (pre ++ cfgTr ++ [Ev.newKubeClient, Ev.newOpenebsClient],
           some (wrapErr "error building openebs clientset" e))
        | Except.ok openebsClient =>
          match w.newNdmClient cfg with
          | Except.error e =>
            (pre ++ cfgTr ++ [Ev.newKubeClient, Ev.newOpenebsClient, Ev.newNdmClient],
             some (wrapErr "error building ndm clientset" e))
          | Except.ok ndmClient =>
            let kubeInformerFactory :=
              NewSharedInformerFactory kubeClient (getSyncInterval w.resyncEnvFirst).1
            let spcInformerFactory :=
              NewSharedInformerFactory openebsClient (getSyncInterval w.resyncEnvSecond).1
            let builder := buildChain kubeClient openebsClient ndmClient spcInformerFactory
            let tr := pre ++ cfgTr ++
              [Ev.newKubeClient, Ev.newOpenebsClient, Ev.newNdmClient,
               Ev.newKubeInformerFactory kubeInformerFactory.resyncPeriod,
               Ev.newSpcInformerFactory spcInformerFactory.resyncPeriod,
               Ev.withEventHandler]
            match w.buildController builder with
            | Except.error e =>
              (tr ++ [Ev.buildErr],
               some (wrapErr "error building controller instance" e))
            | Except.ok controller =>
              (tr ++ [Ev.buildOk, Ev.startKubeFactory stopCh,
                      Ev.startSpcFactory stopCh, Ev.run 2 stopCh],
               w.runController controller 2 stopCh)

/-! ## Helper lemmas -/

/-- The trace of `getClusterConfig` as run by `Start`. -/
def cfgTrace (w : World) : List Ev := (getClusterConfig w w.kubeconfigFlag).1

/-- Does an event record the signal-handler setup? -/
def isSetupSignalHandlerEv : Ev → Bool
  | Ev.setupSignalHandler _ => true
  | _ => false

/-- No informer factory is ever created in the trace. -/
def noFactoryEvents (tr : List Ev) : Prop :=
  ∀ r : Int, Ev.newKubeInformerFactory r ∉ tr ∧ Ev.newSpcInformerFactory r ∉ tr

/-- A sample world in which every external call succeeds: empty kubeconfig
flag (in-cluster config), `RESYNC_INTERVAL` absent. -/
def wOK : World where
  stopCh := 7
  kubeconfigFlag := ""
  resyncEnvFirst := none
  resyncEnvSecond := none
  flagSetErr := none
  buildConfigFromFlags := fun _ => Except.ok 1
  inClusterConfig := Except.ok 2
  newKubernetesClient := fun c => Except.ok (c + 10)
  newOpenebsClient := fun c => Except.ok (c + 20)
  newNdmClient := fun c => Except.ok (c + 30)
  buildController := fun _ => Except.ok 99
  runController := fun _ _ _ => none

/-- A sample world whose kubeconfig flag names a nonexistent file, so
loading it fails. -/
def wCfgErr : World :=
  { wOK with
    kubeconfigFlag := "/nonexistent"
    buildConfigFromFlags := fun _ => Except.error ⟨"no such file"⟩ }

/-- A sample world in which building the kubernetes clientset fails. -/
def wKubeErr : World :=
  { wOK with newKubernetesClient := fun _ => Except.error ⟨"bad config"⟩ }

/-- A sample world in which the controller builder's `Build` fails. -/
def wBuildErr : World :=
  { wOK with buildController := fun _ => Except.error ⟨"missing dependency"⟩ }

theorem cfgTrace_cases (w : World) :
    cfgTrace w = [Ev.getConfigFromFlags w.kubeconfigFlag] ∨
    cfgTrace w = [Ev.getConfigInCluster] := by
  unfold cfgTrace getClusterConfig
  by_cases h : w.kubeconfigFlag ≠ "" <;> simp [h]

theorem Start_eq_of_flagSetErr (w : World) (e : Err) (h : w.flagSetErr = some e) :
    Start w = ([Ev.setupSignalHandler w.stopCh, Ev.flagSet],
               some (wrapErr "failed to set logtostderr flag" e)) := by
  simp only [Start, h]

theorem Start_eq_of_configErr (w : World) (t : List Ev) (e : Err)
    (h1 : w.flagSetErr = none)
    (h2 : getClusterConfig w w.kubeconfigFlag = (t, Except.error e)) :
    Start w = ([Ev.setupSignalHandler w.stopCh, Ev.flagSet, Ev.flagParse] ++ t,
               some (wrapErr "error building kubeconfig" e)) := by
  simp only [Start, h1, h2]

theorem Start_eq_of_kubeErr (w : World) (t : List Ev) (cfg : Config) (e : Err)
    (h1 : w.flagSetErr = none)
    (h2 : getClusterConfig w w.kubeconfigFlag = (t, Except.ok cfg))
    (h3 : w.newKubernetesClient cfg = Except.error e) :
    Start w = ([Ev.setupSignalHandler w.stopCh, Ev.flagSet, Ev.flagParse] ++ t ++
                 [Ev.newKubeClient],
               some (wrapErr "error building kubernetes clientset" e)) := by
  simp only [Start, h1, h2, h3]

theorem Start_eq_of_openebsErr (w : World) (t : List Ev) (cfg : Config) (k : Client) (e : Err)
    (h1 : w.flagSetErr = none)
    (h2 : getClusterConfig w w.kubeconfigFlag = (t, Except.ok cfg))
    (h3 : w.newKubernetesClient cfg = Except.ok k)
    (h4 : w.newOpenebsClient cfg = Except.error e) :
    Start w = ([Ev.setupSignalHandler w.stopCh, Ev.flagSet, Ev.flagParse] ++ t ++
                 [Ev.newKubeClient, Ev.newOpenebsClient],
               some (wrapErr "error building openebs clientset" e)) := by
  simp only [Start, h1, h2, h3, h4]

theorem Start_eq_of_ndmErr (w : World) (t : List Ev) (cfg : Config) (k o : Client) (e : Err)
    (h1 : w.flagSetErr = none)
    (h2 : getClusterConfig w w.kubeconfigFlag = (t, Except.ok cfg))
    (h3 : w.newKubernetesClient cfg = Except.ok k)
    (h4 : w.newOpenebsClient cfg = Except.ok o)
    (h5 : w.newNdmClient cfg = Except.error e) :
    Start w = ([Ev.setupSignalHandler w.stopCh, Ev.flagSet, Ev.flagParse] ++ t ++
                 [Ev.newKubeClient, Ev.newOpenebsClient, Ev.newNdmClient],
               some (wrapErr "error building ndm clientset" e)) := by
  simp only [Start, h1, h2, h3, h4, h5]

theorem Start_eq_of_buildErr (w : World) (t : List Ev) (cfg : Config) (k o nd : Client) (e : Err)
    (h1 : w.flagSetErr = none)
    (h2 : getClusterConfig w w.kubeconfigFlag = (t, Except.ok cfg))
    (h3 : w.newKubernetesClient cfg = Except.ok k)
    (h4 : w.newOpenebsClient cfg = Except.ok o)
    (h5 : w.newNdmClient cfg = Except.ok nd)
    (h6 : w.buildController (buildChain k o nd
            (NewSharedInformerFactory o (getSyncInterval w.resyncEnvSecond).1)) =
          Except.error e) :
    Start w = ([Ev.setupSignalHandler w.stopCh, Ev.flagSet, Ev.flagParse] ++ t ++
                 [Ev.newKubeClient, Ev.newOpenebsClient, Ev.newNdmClient,
                  Ev.newKubeInformerFactory (getSyncInterval w.resyncEnvFirst).1,
                  Ev.newSpcInformerFactory (getSyncInterval w.resyncEnvSecond).1,
                  Ev.withEventHandler, Ev.buildErr],
               some (wrapErr "error building controller instance" e)) := by
  have h6' := h6
  simp only [NewSharedInformerFactory] at h6'
  simp only [Start, h1, h2, h3, h4, h5, NewSharedInformerFactory, h6']
  simp

theorem Start_eq_of_buildOk (w : World) (t : List Ev) (cfg : Config) (k o nd : Client)
    (ctrl : Controller)
    (h1 : w.flagSetErr = none)
    (h2 : getClusterConfig w w.kubeconfigFlag = (t, Except.ok cfg))
    (h3 : w.newKubernetesClient cfg = Except.ok k)
    (h4 : w.newOpenebsClient cfg = Except.ok o)
    (h5 : w.newNdmClient cfg = Except.ok nd)
    (h6 : w.buildController (buildChain k o nd
            (NewSharedInformerFactory o (getSyncInterval w.resyncEnvSecond).1)) =
          Except.ok ctrl) :
    Start w = ([Ev.setupSignalHandler w.stopCh, Ev.flagSet, Ev.flagParse] ++ t ++
                 [Ev.newKubeClient, Ev.newOpenebsClient, Ev.newNdmClient,
                  Ev.newKubeInformerFactory (getSyncInterval w.resyncEnvFirst).1,
                  Ev.newSpcInformerFactory (getSyncInterval w.resyncEnvSecond).1,
                  Ev.withEventHandler, Ev.buildOk,
                  Ev.startKubeFactory w.stopCh, Ev.startSpcFactory w.stopCh,
                  Ev.run 2 w.stopCh],
               w.runController ctrl 2 w.stopCh) := by
  have h6' := h6
  simp only [NewSharedInformerFactory] at h6'
  simp only [Start, h1, h2, h3, h4, h5, NewSharedInformerFactory, h6']
  simp

/-- Every execution of `Start` takes exactly one of seven paths; this names the
resulting trace/return pair for each. -/
theorem Start_cases (w : World) :
    (∃ e, Start w = ([Ev.setupSignalHandler w.stopCh, Ev.flagSet],
        some (wrapErr "failed to set logtostderr flag" e))) ∨
    (∃ e, Start w = ([Ev.setupSignalHandler w.stopCh, Ev.flagSet, Ev.flagParse] ++ cfgTrace w,
        some (wrapErr "error building kubeconfig" e))) ∨
    (∃ e, Start w = ([Ev.setupSignalHandler w.stopCh, Ev.flagSet, Ev.flagParse] ++ cfgTrace w ++
          [Ev.newKubeClient],
        some (wrapErr "error building kubernetes clientset" e))) ∨
    (∃ e, Start w = ([Ev.setupSignalHandler w.stopCh, Ev.flagSet, Ev.flagParse] ++ cfgTrace w ++
          [Ev.newKubeClient, Ev.newOpenebsClient],
        some (wrapErr "error building openebs clientset" e))) ∨
    (∃ e, Start w = ([Ev.setupSignalHandler w.stopCh, Ev.flagSet, Ev.flagParse] ++ cfgTrace w ++
          [Ev.newKubeClient, Ev.newOpenebsClient, Ev.newNdmClient],
        some (wrapErr "error building ndm clientset" e))) ∨
    (∃ e, Start w = ([Ev.setupSignalHandler w.stopCh, Ev.flagSet, Ev.flagParse] ++ cfgTrace w ++
          [Ev.newKubeClient, Ev.newOpenebsClient, Ev.newNdmClient,
           Ev.newKubeInformerFactory (getSyncInterval w.resyncEnvFirst).1,
           Ev.newSpcInformerFactory (getSyncInterval w.resyncEnvSecond).1,
           Ev.withEventHandler, Ev.buildErr],
        some (wrapErr "error building controller instance" e))) ∨
    (∃ ctrl, Start w = ([Ev.setupSignalHandler w.stopCh, Ev.flagSet, Ev.flagParse] ++ cfgTrace w ++
          [Ev.newKubeClient, Ev.newOpenebsClient, Ev.newNdmClient,
           Ev.newKubeInformerFactory (getSyncInterval w.resyncEnvFirst).1,
           Ev.newSpcInformerFactory (getSyncInterval w.resyncEnvSecond).1,
           Ev.withEventHandler, Ev.buildOk,
           Ev.startKubeFactory w.stopCh, Ev.startSpcFactory w.stopCh,
           Ev.run 2 w.stopCh],
        w.runController ctrl 2 w.stopCh)) := by
  rcases hf : w.flagSetErr with _ | e
  case some => exact Or.inl ⟨e, Start_eq_of_flagSetErr w e hf⟩
  rcases hg : getClusterConfig w w.kubeconfigFlag with ⟨t, cr⟩
  have ht : cfgTrace w = t := by rw [cfgTrace, hg]
  rcases cr with e | cfg
  · exact Or.inr (Or.inl ⟨e, by rw [Start_eq_of_configErr w t e hf hg, ht]⟩)
  rcases hk : w.newKubernetesClient cfg with e | k
  · exact Or.inr (Or.inr (Or.inl ⟨e, by rw [Start_eq_of_kubeErr w t cfg e hf hg hk, ht]⟩))
  rcases ho : w.newOpenebsClient cfg with e | o
  · exact Or.inr (Or.inr (Or.inr (Or.inl ⟨e,
      by rw [Start_eq_of_openebsErr w t cfg k e hf hg hk ho, ht]⟩)))
  rcases hn : w.newNdmClient cfg with e | nd
  · exact Or.inr (Or.inr (Or.inr (Or.inr (Or.inl ⟨e,
      by rw [Start_eq_of_ndmErr w t cfg k o e hf hg hk ho hn, ht]⟩))))
  rcases hb : w.buildController (buildChain k o nd
      (NewSharedInformerFactory o (getSyncInterval w.resyncEnvSecond).1)) with e | ctrl
  · exact Or.inr (Or.inr (Or.inr (Or.inr (Or.inr (Or.inl ⟨e,
      by rw [Start_eq_of_buildErr w t cfg k o nd e hf hg hk ho hn hb, ht]⟩)))))
  · exact Or.inr (Or.inr (Or.inr (Or.inr (Or.inr (Or.inr ⟨ctrl,
      by rw [Start_eq_of_buildOk w t cfg k o nd ctrl hf hg hk ho hn hb, ht]⟩)))))

theorem wrap64_eq_self (x : Int)
    (h1 : -9223372036854775808 ≤ x) (h2 : x < 9223372036854775808) :
    wrap64 x = x := by
  unfold wrap64
  rw [Int.emod_eq_of_lt (by omega) (by omega)]
  omega

theorem wrap64_mem_int64 (x : Int) :
    -9223372036854775808 ≤ wrap64 x ∧ wrap64 x < 9223372036854775808 := by
  unfold wrap64
  have h1 := Int.emod_nonneg (x + 9223372036854775808)
    (by norm_num : (18446744073709551616 : Int) ≠ 0)
  have h2 := Int.emod_lt_of_pos (x + 9223372036854775808)
    (by norm_num : (0 : Int) < 18446744073709551616)
  omega

/-! ## Claims about the synchronization-interval resolver -/

/-- C2 counterexample: `RESYNC_INTERVAL = "10000000000"` parses to the
positive integer 10000000000, yet `getSyncInterval` does not return
10000000000 seconds: the nanosecond multiplication wraps around 64 bits
and yields a negative duration. -/
theorem getSyncInterval_positive_overflow_cex :
    atoi "10000000000" = Except.ok 10000000000 ∧
    getSyncInterval (some "10000000000") = (-8446744073709551616, false) ∧
    (-8446744073709551616 : Int) ≠ 10000000000 * goSecond := by
  refine ⟨by decide, by decide, by decide⟩

/-- C2 (amended): if `RESYNC_INTERVAL` parses under Go's 64-bit `Atoi` to a
positive integer `n` with `n ≤ 9223372036` (so that `n` seconds is
representable as an `int64` nanosecond count), `getSyncInterval` returns
exactly `n` seconds with no warning; if it is absent, non-numeric, or out
of `int64` range, or if it parses to zero, `getSyncInterval` returns the
30-second default and warns. -/
theorem getSyncInterval_spec (env : Option String) :
    (∀ n : Int, atoi (getenv env) = Except.ok n → 0 < n → n ≤ 9223372036 →
        getSyncInterval env = (n * goSecond, false)) ∧
    (∀ e : Unit, atoi (getenv env) = Except.error e →
        getSyncInterval env = (ResyncInterval, true)) ∧
    (atoi (getenv env) = Except.ok 0 →
        getSyncInterval env = (ResyncInterval, true)) := by
  refine ⟨?_, ?_, ?_⟩
  · intro n h hpos hle
    simp only [getSyncInterval, h, goSecond]
    rw [if_neg (by omega : ¬ n = 0), wrap64_eq_self _ (by omega) (by omega)]
  · intro e h
    simp only [getSyncInterval, h]
  · intro h
    simp only [getSyncInterval, h, if_pos]

/-- C2 witness: `RESYNC_INTERVAL = "7"` yields 7 seconds and no warning. -/
theorem getSyncInterval_spec_witness :
    getSyncInterval (some "7") = (7 * goSecond, false) :=
  (getSyncInterval_spec (some "7")).1 7 (by decide) (by norm_num) (by norm_num)

/-- C7 counterexample: `RESYNC_INTERVAL = "-10000000000"` parses to the
negative integer -10000000000, yet `getSyncInterval` does not return
-10000000000 seconds: the nanosecond multiplication wraps around 64 bits
and yields a positive duration. -/
theorem getSyncInterval_negative_overflow_cex :
    atoi "-10000000000" = Except.ok (-10000000000) ∧
    getSyncInterval (some "-10000000000") = (8446744073709551616, false) ∧
    (8446744073709551616 : Int) ≠ -10000000000 * goSecond := by
  refine ⟨by decide, by decide, by decide⟩

/-- C7 (amended): negative parsed values are not special-cased — whenever
`RESYNC_INTERVAL` parses under Go's 64-bit `Atoi` to a negative integer `n`
with `-9223372036 ≤ n` (so that `n` seconds is representable as an `int64`
nanosecond count), `getSyncInterval` passes it through and returns exactly
`n` seconds (a negative duration, not the 30-second default) with no
warning. -/
theorem getSyncInterval_negative_passthrough (env : Option String) :
    ∀ n : Int, atoi (getenv env) = Except.ok n → n < 0 → -9223372036 ≤ n →
      getSyncInterval env = (n * goSecond, false) := by
  intro n h hneg hle
  simp only [getSyncInterval, h, goSecond]
  rw [if_neg (by omega : ¬ n = 0), wrap64_eq_self _ (by omega) (by omega)]

/-- C7 witness: `RESYNC_INTERVAL = "-5"` yields -5 seconds, not the
default. -/
theorem getSyncInterval_negative_passthrough_witness :
    getSyncInterval (some "-5") = (-5 * goSecond, false) :=
  getSyncInterval_negative_passthrough (some "-5") (-5) (by decide) (by norm_num)
    (by norm_num)

/-- C8: `getSyncInterval` is total — for every possible value of the
`RESYNC_INTERVAL` environment variable (absent, empty, non-numeric, or an
arbitrarily large or negative numeral) it returns a duration, and that
duration is always a well-defined `int64` nanosecond count. -/
theorem getSyncInterval_total (env : Option String) :
    -9223372036854775808 ≤ (getSyncInterval env).1 ∧
      (getSyncInterval env).1 < 9223372036854775808 := by
  unfold getSyncInterval
  rcases h : atoi (getenv env) with e | n
  · simp [ResyncInterval, goSecond]
  · simp only []
    by_cases hz : n = 0
    · simp [hz, ResyncInterval, goSecond]
    · simp only [if_neg hz]
      exact wrap64_mem_int64 _

/-! ## Claims about the cluster connector and the startup sequence -/

/-- C3: for a non-empty kubeconfig path, `getClusterConfig` loads from that
path and returns the loader's result unchanged — any failure is returned as
an error and in-cluster discovery is never consulted; for the empty path it
falls back to in-cluster configuration, whose failure is likewise returned
unchanged. -/
theorem getClusterConfig_spec (w : World) (path : String) :
    (path ≠ "" →
        getClusterConfig w path =
          ([Ev.getConfigFromFlags path], w.buildConfigFromFlags path) ∧
        Ev.getConfigInCluster ∉ (getClusterConfig w path).1) ∧
    (path = "" →
        getClusterConfig w path = ([Ev.getConfigInCluster], w.inClusterConfig)) := by
  constructor
  · intro h
    constructor
    · simp [getClusterConfig, h]
    · simp [getClusterConfig, h]
  · intro h
    simp [getClusterConfig, h]

/-- C3 witness: a concrete non-empty path goes through the explicit loader. -/
theorem getClusterConfig_spec_witness :
    getClusterConfig wOK "/etc/kube/config" =
      ([Ev.getConfigFromFlags "/etc/kube/config"], Except.ok 1) ∧
    Ev.getConfigInCluster ∉ (getClusterConfig wOK "/etc/kube/config").1 :=
  (getClusterConfig_spec wOK "/etc/kube/config").1 (by decide)

/-- C4: when `getClusterConfig` fails, `Start` returns the error wrapped with
"error building kubeconfig" and aborts before constructing any of the three
API clients. -/
theorem configErr_aborts_before_clients (w : World) (t : List Ev) (e : Err)
    (h1 : w.flagSetErr = none)
    (h2 : getClusterConfig w w.kubeconfigFlag = (t, Except.error e)) :
    (Start w).2 = some (wrapErr "error building kubeconfig" e) ∧
    Ev.newKubeClient ∉ (Start w).1 ∧
    Ev.newOpenebsClient ∉ (Start w).1 ∧
    Ev.newNdmClient ∉ (Start w).1 := by
  have ht : cfgTrace w = t := by rw [cfgTrace, h2]
  have hc := cfgTrace_cases w
  rw [ht] at hc
  rw [Start_eq_of_configErr w t e h1 h2]
  rcases hc with hc | hc <;> subst hc <;> simp

/-- C4 witness: a world whose kubeconfig flag names a nonexistent file. -/
theorem configErr_aborts_before_clients_witness :
    (Start wCfgErr).2 = some (wrapErr "error building kubeconfig" ⟨"no such file"⟩) ∧
    Ev.newKubeClient ∉ (Start wCfgErr).1 ∧
    Ev.newOpenebsClient ∉ (Start wCfgErr).1 ∧
    Ev.newNdmClient ∉ (Start wCfgErr).1 :=
  configErr_aborts_before_clients wCfgErr [Ev.getConfigFromFlags "/nonexistent"]
    ⟨"no such file"⟩ rfl (by decide)

/-- C5: each failing client construction makes `Start` return an error wrapped
with the name of the failing client family, and in that case no informer
factory is ever created; when all three clients are built, all three client
constructions occur strictly before either informer factory is created. -/
theorem client_errors_and_ordering (w : World) (t : List Ev) (cfg : Config)
    (h1 : w.flagSetErr = none)
    (h2 : getClusterConfig w w.kubeconfigFlag = (t, Except.ok cfg)) :
    (∀ e, w.newKubernetesClient cfg = Except.error e →
        (Start w).2 = some (wrapErr "error building kubernetes clientset" e) ∧
        noFactoryEvents (Start w).1) ∧
    (∀ k e, w.newKubernetesClient cfg = Except.ok k →
        w.newOpenebsClient cfg = Except.error e →
        (Start w).2 = some (wrapErr "error building openebs clientset" e) ∧
        noFactoryEvents (Start w).1) ∧
    (∀ k o e, w.newKubernetesClient cfg = Except.ok k →
        w.newOpenebsClient cfg = Except.ok o →
        w.newNdmClient cfg = Except.error e →
        (Start w).2 = some (wrapErr "error building ndm clientset" e) ∧
        noFactoryEvents (Start w).1) ∧
    (∀ k o nd, w.newKubernetesClient cfg = Except.ok k →
        w.newOpenebsClient cfg = Except.ok o →
        w.newNdmClient cfg = Except.ok nd →
        ∃ l₁ l₂, (Start w).1 =
            l₁ ++ Ev.newKubeInformerFactory (getSyncInterval w.resyncEnvFirst).1 ::
              Ev.newSpcInformerFactory (getSyncInterval w.resyncEnvSecond).1 :: l₂ ∧
          Ev.newKubeClient ∈ l₁ ∧ Ev.newOpenebsClient ∈ l₁ ∧ Ev.newNdmClient ∈ l₁ ∧
          noFactoryEvents l₁) := by
  have ht : cfgTrace w = t := by rw [cfgTrace, h2]
  have hc := cfgTrace_cases w
  rw [ht] at hc
  refine ⟨?_, ?_, ?_, ?_⟩
  · intro e hk
    rw [Start_eq_of_kubeErr w t cfg e h1 h2 hk]
    refine ⟨rfl, ?_⟩
    intro r
    rcases hc with hc | hc <;> subst hc <;> simp
  · intro k e hk ho
    rw [Start_eq_of_openebsErr w t cfg k e h1 h2 hk ho]
    refine ⟨rfl, ?_⟩
    intro r
    rcases hc with hc | hc <;> subst hc <;> simp
  · intro k o e hk ho hn
    rw [Start_eq_of_ndmErr w t cfg k o e h1 h2 hk ho hn]
    refine ⟨rfl, ?_⟩
    intro r
    rcases hc with hc | hc <;> subst hc <;> simp
  · intro k o nd hk ho hn
    rcases hb : w.buildController (buildChain k o nd
        (NewSharedInformerFactory o (getSyncInterval w.resyncEnvSecond).1)) with e | ctrl
    · rw [Start_eq_of_buildErr w t cfg k o nd e h1 h2 hk ho hn hb]
      refine ⟨[Ev.setupSignalHandler w.stopCh, Ev.flagSet, Ev.flagParse] ++ t ++
          [Ev.newKubeClient, Ev.newOpenebsClient, Ev.newNdmClient],
        [Ev.withEventHandler, Ev.buildErr], by simp, by simp, by simp, by simp, ?_⟩
      intro r
      rcases hc with hc | hc <;> subst hc <;> simp
    · rw [Start_eq_of_buildOk w t cfg k o nd ctrl h1 h2 hk ho hn hb]
      refine ⟨[Ev.setupSignalHandler w.stopCh, Ev.flagSet, Ev.flagParse] ++ t ++
          [Ev.newKubeClient, Ev.newOpenebsClient, Ev.newNdmClient],
        [Ev.withEventHandler, Ev.buildOk, Ev.startKubeFactory w.stopCh,
         Ev.startSpcFactory w.stopCh, Ev.run 2 w.stopCh],
        by simp, by simp, by simp, by simp, ?_⟩
      intro r
      rcases hc with hc | hc <;> subst hc <;> simp

/-- C5 witness: a failing kubernetes clientset construction. -/
theorem client_errors_and_ordering_witness :
    (Start wKubeErr).2 =
      some (wrapErr "error building kubernetes clientset" ⟨"bad config"⟩) ∧
    noFactoryEvents (Start wKubeErr).1 :=
  (client_errors_and_ordering wKubeErr [Ev.getConfigInCluster] 2 rfl rfl).1
    ⟨"bad config"⟩ rfl

/-- C6: on the fully successful startup path, `Start`'s return value is
exactly the value returned by `controller.Run` invoked with worker count 2
and the stop channel produced by `SetupSignalHandler`. -/
theorem start_returns_run (w : World) (t : List Ev) (cfg : Config) (k o nd : Client)
    (ctrl : Controller)
    (h1 : w.flagSetErr = none)
    (h2 : getClusterConfig w w.kubeconfigFlag = (t, Except.ok cfg))
    (h3 : w.newKubernetesClient cfg = Except.ok k)
    (h4 : w.newOpenebsClient cfg = Except.ok o)
    (h5 : w.newNdmClient cfg = Except.ok nd)
    (h6 : w.buildController (buildChain k o nd
        (NewSharedInformerFactory o (getSyncInterval w.resyncEnvSecond).1)) =
          Except.ok ctrl) :
    (Start w).2 = w.runController ctrl 2 w.stopCh ∧
    Ev.run 2 w.stopCh ∈ (Start w).1 := by
  rw [Start_eq_of_buildOk w t cfg k o nd ctrl h1 h2 h3 h4 h5 h6]
  exact ⟨rfl, by simp⟩

/-- C6 witness: in the all-successful sample world, `Start` returns exactly
what `Run(2, stopCh)` returns. -/
theorem start_returns_run_witness :
    (Start wOK).2 = wOK.runController 99 2 wOK.stopCh ∧
    Ev.run 2 wOK.stopCh ∈ (Start wOK).1 :=
  start_returns_run wOK [Ev.getConfigInCluster] 2 12 22 32 99 rfl rfl rfl rfl rfl rfl

/-- C1: an informer factory is started only after the whole builder chain
(including the `withEventHandler` registration) has run and `Build` has
returned successfully — every trace containing a factory start splits into a
prefix holding `withEventHandler` and the successful build and a suffix
holding both factory starts; and when `Build` fails, `Start` returns the
wrapped build error and neither factory is ever started. -/
theorem factories_start_only_after_build (w : World) :
    (∀ c : Nat,
        Ev.startKubeFactory c ∈ (Start w).1 ∨ Ev.startSpcFactory c ∈ (Start w).1 →
        ∃ l₁ l₂, (Start w).1 = l₁ ++ l₂ ∧
          Ev.withEventHandler ∈ l₁ ∧ Ev.buildOk ∈ l₁ ∧
          (∀ c' : Nat, Ev.startKubeFactory c' ∉ l₁ ∧ Ev.startSpcFactory c' ∉ l₁) ∧
          Ev.startKubeFactory c ∈ l₂ ∧ Ev.startSpcFactory c ∈ l₂) ∧
    (∀ t cfg k o nd e, w.flagSetErr = none →
        getClusterConfig w w.kubeconfigFlag = (t, Except.ok cfg) →
        w.newKubernetesClient cfg = Except.ok k →
        w.newOpenebsClient cfg = Except.ok o →
        w.newNdmClient cfg = Except.ok nd →
        w.buildController (buildChain k o nd
            (NewSharedInformerFactory o (getSyncInterval w.resyncEnvSecond).1)) =
          Except.error e →
        (Start w).2 = some (wrapErr "error building controller instance" e) ∧
        ∀ c : Nat, Ev.startKubeFactory c ∉ (Start w).1 ∧
          Ev.startSpcFactory c ∉ (Start w).1) := by
  constructor
  · intro c hmem
    rcases Start_cases w with ⟨e,h⟩|⟨e,h⟩|⟨e,h⟩|⟨e,h⟩|⟨e,h⟩|⟨e,h⟩|⟨ctrl,h⟩
    rotate_left 6
    · rw [h] at hmem
      rcases cfgTrace_cases w with hc | hc <;>
        (rw [hc] at hmem
         simp at hmem
         subst hmem
         refine ⟨[Ev.setupSignalHandler w.stopCh, Ev.flagSet, Ev.flagParse] ++
             cfgTrace w ++
             [Ev.newKubeClient, Ev.newOpenebsClient, Ev.newNdmClient,
              Ev.newKubeInformerFactory (getSyncInterval w.resyncEnvFirst).1,
              Ev.newSpcInformerFactory (getSyncInterval w.resyncEnvSecond).1,
              Ev.withEventHandler, Ev.buildOk],
           [Ev.startKubeFactory w.stopCh, Ev.startSpcFactory w.stopCh,
            Ev.run 2 w.stopCh],
           ?_, by simp, by simp, ?_, by simp, by simp⟩
         · rw [h]
           simp
         · intro c'
           rw [hc]
           simp)
    all_goals
      exfalso
      rw [h] at hmem
      rcases cfgTrace_cases w with hc | hc <;>
        rcases hmem with hm | hm <;> simp [hc] at hm
  · intro t cfg k o nd e hf hg hk ho hn hb
    have ht : cfgTrace w = t := by rw [cfgTrace, hg]
    have hc := cfgTrace_cases w
    rw [ht] at hc
    rw [Start_eq_of_buildErr w t cfg k o nd e hf hg hk ho hn hb]
    refine ⟨rfl, ?_⟩
    intro c
    rcases hc with hc | hc <;> subst hc <;> simp

/-- C1 witness: in the all-successful sample world the trace splits around
the successful build, with both factory starts strictly after it. -/
theorem factories_start_only_after_build_witness :
    ∃ l₁ l₂, (Start wOK).1 = l₁ ++ l₂ ∧
      Ev.withEventHandler ∈ l₁ ∧ Ev.buildOk ∈ l₁ ∧
      (∀ c' : Nat, Ev.startKubeFactory c' ∉ l₁ ∧ Ev.startSpcFactory c' ∉ l₁) ∧
      Ev.startKubeFactory 7 ∈ l₂ ∧ Ev.startSpcFactory 7 ∈ l₂ :=
  (factories_start_only_after_build wOK).1 7 (Or.inl (by decide))

/-- C9: `SetupSignalHandler` is consulted exactly once per execution of
`Start`, and every stop channel handed to a factory start or to
`controller.Run` is that single channel. -/
theorem single_stop_signal (w : World) :
    (Start w).1.countP isSetupSignalHandlerEv = 1 ∧
    (∀ c, Ev.startKubeFactory c ∈ (Start w).1 → c = w.stopCh) ∧
    (∀ c, Ev.startSpcFactory c ∈ (Start w).1 → c = w.stopCh) ∧
    (∀ n c, Ev.run n c ∈ (Start w).1 → c = w.stopCh) := by
  have hc := cfgTrace_cases w
  rcases Start_cases w with ⟨e,h⟩|⟨e,h⟩|⟨e,h⟩|⟨e,h⟩|⟨e,h⟩|⟨e,h⟩|⟨ctrl,h⟩ <;>
    rw [h] <;>
    rcases hc with hc | hc <;>
    (try rw [hc]) <;>
    refine ⟨by simp [List.countP_cons, List.countP_nil, isSetupSignalHandlerEv],
      fun c hmem => ?_, fun c hmem => ?_, fun n c hmem => ?_⟩ <;>
    simp at hmem <;>
    first
      | exact hmem
      | exact hmem.2

/-- C9 witness: in the all-successful sample world the kube factory is
started with the signal handler's channel. -/
theorem single_stop_signal_witness :
    Ev.startKubeFactory 7 ∈ (Start wOK).1 ∧ (7 : Nat) = wOK.stopCh :=
  ⟨by decide, (single_stop_signal wOK).2.1 7 (by decide)⟩

/-- C10: `getSyncInterval` is deterministic in the environment, so when the
environment does not change between `Start`'s two `getSyncInterval` calls,
both informer factories are created with the same resync interval. -/
theorem resync_interval_deterministic (w : World)
    (h : w.resyncEnvFirst = w.resyncEnvSecond) :
    (∀ env₁ env₂ : Option String, env₁ = env₂ →
        getSyncInterval env₁ = getSyncInterval env₂) ∧
    (∀ r₁ r₂ : Int, Ev.newKubeInformerFactory r₁ ∈ (Start w).1 →
        Ev.newSpcInformerFactory r₂ ∈ (Start w).1 → r₁ = r₂) := by
  refine ⟨fun a b hab => by rw [hab], ?_⟩
  intro r₁ r₂ h₁ h₂
  have hc := cfgTrace_cases w
  rcases Start_cases w with ⟨e,hS⟩|⟨e,hS⟩|⟨e,hS⟩|⟨e,hS⟩|⟨e,hS⟩|⟨e,hS⟩|⟨ctrl,hS⟩ <;>
    rw [hS] at h₁ h₂ <;>
    rcases hc with hc | hc <;>
    (try rw [hc] at h₁ h₂) <;>
    simp at h₁ h₂ <;>
    rw [h₁, h₂, h]

/-- C10 witness: with `RESYNC_INTERVAL` absent at both calls, both factories
get the 30-second default. -/
theorem resync_interval_deterministic_witness :
    Ev.newKubeInformerFactory 30000000000 ∈ (Start wOK).1 ∧
    Ev.newSpcInformerFactory 30000000000 ∈ (Start wOK).1 ∧
    (30000000000 : Int) = 30000000000 :=
  ⟨by decide, by decide,
    (resync_interval_deterministic wOK rfl).2 30000000000 30000000000
      (by decide) (by decide)⟩
